import Mathlib

/-!
Shallow embedding of the CSV-to-Database ETL pipeline
(src/main.py, src/etl/extract.py, src/etl/transform.py, src/etl/load.py)
and proofs settling the frozen claims about it.

Conventions of the embedding:
* pandas cell values are modelled by the inductive type `Value`; floating
  point numerics are modelled by rationals (`Rat`), which is adequate for
  every claim here (none depends on IEEE rounding).
* Python exceptions are modelled by `Except String` results; the error
  string stands for the exception message.  Each component keeps the
  source code structure of its try/except blocks.
* The filesystem is modelled explicitly: the input directory is a value
  (`InputDir`), and relocations performed by the pipeline are recorded as
  events (`Ev`), so that claims about quarantine/archive behaviour are
  observable.
-/

/-- A pandas cell value: integer, numeric (float modelled as a rational),
text, boolean, timestamp (abstract instant), or null (NaN/NaT/NA). -/
inductive Value where
  | vInt (n : Int)
  | vNum (q : Rat)
  | vStr (s : String)
  | vBool (b : Bool)
  | vTime (t : Int)
  | vNull
deriving DecidableEq, Repr

/-- A tabular chunk (pandas DataFrame): ordered named columns. -/
structure Chunk where
  cols : List (String × List Value)
deriving DecidableEq, Repr

namespace Chunk

/-- Column lookup, `df[name]`; `none` models a KeyError being raised. -/
def col? (c : Chunk) (name : String) : Option (List Value) :=
  (c.cols.find? (fun p => p.1 == name)).map (·.2)

/-- Replace the contents of an existing column, `df[name] = vs`. -/
def setCol (c : Chunk) (name : String) (vs : List Value) : Chunk :=
  ⟨c.cols.map (fun p => if p.1 == name then (p.1, vs) else p)⟩

/-- The row count of a chunk, len(df): the number of rows (length of the first column). -/
def nrows (c : Chunk) : Nat :=
  match c.cols with
  | [] => 0
  | (_, vs) :: _ => vs.length

end Chunk

/-! ## Extractor (src/etl/extract.py) -/

/-- State of the input directory at one moment: whether it exists and the
file names it contains, in the order the operating system enumerates them. -/
structure InputDir where
  present : Bool
  entries : List String
deriving DecidableEq, Repr

/-- Whether a file name matches the glob pattern `*.csv`: it ends with
the four characters `.csv` (pathlib glob applies no dot-file
exclusion for this pattern, so hidden files match too). -/
def csvGlobMatch (s : String) : Bool :=
  s.toList.reverse.take 4 == ['v', 's', 'c', '.']

/-- Model of `Extractor.list_csv_files` (extract.py lines 34-50): raises
ExtractionError when the input directory does not exist, otherwise returns
the result of `input_dir.glob("*.csv")` in enumeration order (no sorting
is applied). -/
def list_csv_files (d : InputDir) : Except String (List String) :=
  if d.present then
    Except.ok (d.entries.filter csvGlobMatch)
  else
    Except.error "Input directory does not exist"

/-- The name portion of a path before the final dot (pathlib `stem`),
for a plain file name with an extension. -/
def stemOf (f : String) : String :=
  let cs := f.toList
  match (cs.reverse.takeWhile (fun ch => ch ≠ '.')).length with
  | n =>
    if n + 1 ≤ cs.length && n < cs.length then
      String.mk (cs.take (cs.length - n - 1))
    else f

/-- The final extension including the dot (pathlib `suffix`), or empty. -/
def suffixOf (f : String) : String :=
  let cs := f.toList
  let n := (cs.reverse.takeWhile (fun ch => ch ≠ '.')).length
  if n + 1 ≤ cs.length && n < cs.length then
    String.mk (cs.drop (cs.length - n - 1))
  else ""

/-- Model of `Extractor._move_file_to_error` (extract.py lines 167-191): attempt to
move the file to the error directory under the name
`stem_error_timestamp+suffix`; `moveOk` models whether `shutil.move`
succeeds.  On failure the exception is caught, logged, and the original
path is returned; the function never raises (its result type is a plain
path, not an `Except`). -/
def move_file_to_error (moveOk : Bool) (errorDir f timestamp : String) : String :=
  let errorPath := errorDir ++ "/" ++ stemOf f ++ "_error_" ++ timestamp ++ suffixOf f
  if moveOk then errorPath else f

/-! ## Orchestrator load policy (src/main.py line 77) -/

/-- The `if_exists` argument computed for one `loader.load_dataframe` call:
`"append" if batch_idx > 0 or extractor.list_csv_files().index(file_path) > 0
else "replace"`.  `fresh` is the listing returned by the
`list_csv_files()` call made at that moment (by short-circuit evaluation
the directory is re-listed only when `batch_idx = 0`). -/
def ifExistsArg (batchIdx : Nat) (fresh : List String) (f : String) : String :=
  if batchIdx > 0 || fresh.indexOf f > 0 then "append" else "replace"

/-! ## Transformer: type conversion (src/etl/transform.py lines 164-190)

The conversion claims hinge on behaviour that depends on the pandas
dtype of a column — the same cells convert differently in an object
column and in a nullable-integer column, and some casts raise for whole
dtypes — so this section models a pandas Series as a dtype together
with its cells.  The validation and orchestration sections operate on
the untyped chunk model above, which is all their claims observe. -/

/-- Parse a decimal natural number from a character list. -/
def digitsVal? (cs : List Char) : Option Nat :=
  if cs = [] then none
  else if cs.all (fun ch => ch.isDigit) then
    some (cs.foldl (fun acc ch => acc * 10 + (ch.toNat - 48)) 0)
  else none

/-- Strip leading and trailing whitespace from a character list. -/
def stripWs (cs : List Char) : List Char :=
  ((cs.dropWhile (fun c => c.isWhitespace)).reverse.dropWhile
    (fun c => c.isWhitespace)).reverse

/-- Parse an unsigned decimal mantissa — digits, digits.digits, .digits
or digits. — into its digit value and the length of its fractional
part. -/
def parseMant? (cs : List Char) : Option (Nat × Nat) :=
  let ip := cs.takeWhile (fun c => !(c == '.'))
  match cs.dropWhile (fun c => !(c == '.')) with
  | [] => (digitsVal? ip).map (fun a => (a, 0))
  | _ :: fp =>
    if fp.any (fun c => c == '.') then none
    else
      match ip, fp with
      | [], [] => none
      | [], _ => (digitsVal? fp).map (fun f => (f, fp.length))
      | _, [] => (digitsVal? ip).map (fun a => (a, 0))
      | _, _ =>
        match digitsVal? ip, digitsVal? fp with
        | some a, some f => some (a * 10 ^ fp.length + f, fp.length)
        | _, _ => none

/-- Parse an exponent: an optional sign followed by digits. -/
def parseExp? (cs : List Char) : Option Int :=
  match cs with
  | '+' :: ds => (digitsVal? ds).map (fun n => (n : Int))
  | '-' :: ds => (digitsVal? ds).map (fun n => -(n : Int))
  | ds => (digitsVal? ds).map (fun n => (n : Int))

/-- The numeric-string grammar shared by pd.to_numeric and float():
optional surrounding whitespace, an optional sign (plus or minus), a
decimal mantissa and an optional exponent — so +7, 1e3, 2E-2, .5 and
7. all parse.  Infinity and nan spellings are outside the model. -/
def parseNumStr? (s : String) : Option Rat :=
  let cs := stripWs s.toList
  let sb : Int × List Char :=
    match cs with
    | '+' :: t => (1, t)
    | '-' :: t => (-1, t)
    | t => (1, t)
  let mant := sb.2.takeWhile (fun c => !(c == 'e' || c == 'E'))
  let rest := sb.2.dropWhile (fun c => !(c == 'e' || c == 'E'))
  match parseMant? mant with
  | none => none
  | some (a, f) =>
    match rest with
    | [] => some (mkRat (sb.1 * a) (10 ^ f))
    | _ :: es =>
      match parseExp? es with
      | none => none
      | some e =>
        if (f : Int) ≤ e then
          some (mkRat (sb.1 * a * 10 ^ (e - (f : Int)).toNat) 1)
        else
          some (mkRat (sb.1 * a) (10 ^ ((f : Int) - e).toNat))

/-- The numeric reading pd.to_numeric with errors coerce gives to one
cell of an object column: numbers and booleans pass through as
numerics, strings go through the numeric grammar, nulls and anything
unparsable coerce to none (NaN). -/
def toNumericCell (v : Value) : Option Rat :=
  match v with
  | .vInt n => some (mkRat n 1)
  | .vNum q => some q
  | .vBool b => some (mkRat (if b then 1 else 0) 1)
  | .vStr s => parseNumStr? s
  | .vTime _ => none
  | .vNull => none

/-- Encode a calendar date as an abstract instant. -/
def encodeDate (y m d : Nat) : Int := (y * 10000 + m * 100 + d : Nat)

/-- Parse an ISO YYYY-MM-DD date string. -/
def parseDateStr? (s : String) : Option Int :=
  match s.toList with
  | [y1, y2, y3, y4, '-', m1, m2, '-', d1, d2] =>
    match digitsVal? [y1, y2, y3, y4], digitsVal? [m1, m2],
        digitsVal? [d1, d2] with
    | some y, some m, some d =>
      if 1 ≤ m && m ≤ 12 && 1 ≤ d && d ≤ 31 then some (encodeDate y m d)
      else none
    | _, _, _ => none
  | _ => none

/-- The reading pd.to_datetime with errors coerce gives to one cell of
an object or numeric column: timestamps pass through, numbers read as
epoch offsets, date strings parse, nulls and unparsable strings coerce
to null (NaT).  Boolean cells never reach this function: to_datetime
raises on them before any cellwise work (see to_datetime below). -/
def toDatetimeCell (v : Value) : Value :=
  match v with
  | .vTime t => .vTime t
  | .vInt n => .vTime n
  | .vNum q => .vTime q.floor
  | .vStr s => (parseDateStr? s).elim Value.vNull Value.vTime
  | .vBool _ => .vNull
  | .vNull => .vNull

/-- Rendering of one non-null cell by Python str() (nulls are rendered
by renderCell below, which knows the column dtype; this function also
serves the untyped validation model, whose regex rule renders cells as
text). -/
def pyStr (v : Value) : String :=
  match v with
  | .vStr s => s
  | .vInt n => toString n
  | .vNum q => toString q
  | .vBool b => if b then "True" else "False"
  | .vTime t => "Timestamp(" ++ toString t ++ ")"
  | .vNull => "nan"

/-- Python truthiness of one cell, as astype(bool) applies it
elementwise on object and plain numeric columns: empty string and zero
are falsy, NaN is truthy, everything else is truthy. -/
def truthy (v : Value) : Bool :=
  match v with
  | .vStr s => s ≠ ""
  | .vInt n => n ≠ 0
  | .vNum q => q ≠ 0
  | .vBool b => b
  | .vTime _ => true
  | .vNull => true

/-- The pandas column dtypes this pipeline can produce: object columns
(strings and NaN from read_csv, or arbitrary Python objects), int64,
float64, the nullable Int64 extension dtype, numpy bool and
datetime64. -/
inductive PdType where
  | obj
  | i64
  | f64
  | i64n
  | pbool
  | dt64
deriving DecidableEq, Repr

/-- A pandas Series: a dtype together with its cells.  A null cell
reads as np.nan in object and float64 columns, as pd.NA in Int64
columns and as NaT in datetime64 columns — the dtype disambiguates,
which is exactly what the dtype-dependent conversions below branch
on. -/
structure Series where
  dtype : PdType
  cells : List Value
deriving DecidableEq, Repr

/-- Which cells may inhabit a column of each dtype; object columns hold
strings, numbers, booleans and NaN (the model keeps Timestamp objects
out of object columns). -/
def cellOk (t : PdType) (v : Value) : Bool :=
  match t, v with
  | .obj, .vTime _ => false
  | .obj, _ => true
  | .i64, .vInt _ => true
  | .f64, .vNum _ => true
  | .f64, .vNull => true
  | .i64n, .vInt _ => true
  | .i64n, .vNull => true
  | .pbool, .vBool _ => true
  | .dt64, .vTime _ => true
  | .dt64, .vNull => true
  | _, _ => false

/-- Well-formedness of a Series: every cell fits its dtype. -/
def Series.wf (s : Series) : Bool := s.cells.all (cellOk s.dtype)

/-- Whether a cell is a boolean object. -/
def isBoolCell (v : Value) : Bool :=
  match v with
  | .vBool _ => true
  | _ => false

/-- Whether a cell is a string or a missing value — the cell kinds a
freshly read CSV object column holds. -/
def isStrOrNullCell (v : Value) : Bool :=
  match v with
  | .vStr _ => true
  | .vNull => true
  | _ => false

/-- Model of pd.to_numeric(column, errors coerce) on the dtypes above:
numeric and boolean dtypes pass through unchanged (pandas counts them
as already numeric), object columns coerce cellwise with unparsable
cells becoming NaN, datetime columns take their nanosecond view.  The
model represents every numeric result column as float64; pandas
additionally infers int64 when every cell parses as an integer
literal, a distinction the downstream casts cannot observe (astype
float is then the identity and astype Int64 accepts exactly the
integral values), so no theorem depends on it.  With coercion
requested the call does not raise on these dtypes (recent pandas
versions raise on the datetime case, which no theorem below
touches). -/
def to_numeric (s : Series) : Series :=
  match s.dtype with
  | .obj =>
    ⟨.f64, s.cells.map (fun v => (toNumericCell v).elim Value.vNull Value.vNum)⟩
  | .dt64 =>
    ⟨.f64, s.cells.map (fun v =>
      match v with
      | .vTime t => Value.vNum (mkRat t 1)
      | _ => Value.vNull)⟩
  | _ => s

/-- Model of astype(float) — equally of astype with the recognized raw
dtype string float64: exact widening from integer, nullable-integer
and boolean columns, identity on float columns; on object columns a
strict cellwise cast that raises when a string fails the numeric
grammar (unlike to_numeric it does not coerce); on datetime columns
the cast raises. -/
def castFloat (s : Series) : Except String Series :=
  match s.dtype with
  | .f64 => Except.ok s
  | .i64 =>
    Except.ok ⟨.f64, s.cells.map (fun v =>
      match v with
      | .vInt n => Value.vNum (mkRat n 1)
      | v => v)⟩
  | .i64n =>
    Except.ok ⟨.f64, s.cells.map (fun v =>
      match v with
      | .vInt n => Value.vNum (mkRat n 1)
      | v => v)⟩
  | .pbool =>
    Except.ok ⟨.f64, s.cells.map (fun v =>
      match v with
      | .vBool b => Value.vNum (mkRat (if b then 1 else 0) 1)
      | v => v)⟩
  | .obj =>
    if s.cells.all (fun v =>
        match v with
        | .vStr t => (parseNumStr? t).isSome
        | .vTime _ => false
        | _ => true) then
      Except.ok ⟨.f64, s.cells.map (fun v =>
        match v with
        | .vStr t => (parseNumStr? t).elim Value.vNull Value.vNum
        | .vInt n => Value.vNum (mkRat n 1)
        | .vBool b => Value.vNum (mkRat (if b then 1 else 0) 1)
        | v => v)⟩
    else Except.error "could not convert string to float"
  | .dt64 => Except.error "cannot convert datetime64 to float64"

/-- Model of astype(Int64), the nullable integer dtype: safe from
integer and boolean columns; from float columns it raises when any
value has a nonzero fractional part (pandas refuses the unsafe cast)
and otherwise turns NaN into NA; from object columns only integer and
missing cells are accepted; from datetime columns it raises. -/
def castInt64 (s : Series) : Except String Series :=
  match s.dtype with
  | .i64n => Except.ok s
  | .i64 => Except.ok ⟨.i64n, s.cells⟩
  | .pbool =>
    Except.ok ⟨.i64n, s.cells.map (fun v =>
      match v with
      | .vBool b => Value.vInt (if b then 1 else 0)
      | v => v)⟩
  | .f64 =>
    if s.cells.any (fun v =>
        match v with
        | .vNum q => q.den ≠ 1
        | _ => false) then
      Except.error "cannot safely cast non-equivalent float64 to int64"
    else
      Except.ok ⟨.i64n, s.cells.map (fun v =>
        match v with
        | .vNum q => Value.vInt q.num
        | v => v)⟩
  | .obj =>
    if s.cells.all (fun v =>
        match v with
        | .vInt _ => true
        | .vNull => true
        | _ => false) then
      Except.ok ⟨.i64n, s.cells⟩
    else Except.error "object cannot be converted to an IntegerDtype"
  | .dt64 => Except.error "cannot convert datetime64 to Int64"

/-- Model of pd.to_datetime(column, errors coerce): identity on
datetime columns; numeric and nullable-integer columns read as epoch
offsets with nulls becoming NaT; object columns convert cellwise with
unparsable cells coerced to NaT, except that a boolean object makes
the call raise; and a boolean column raises outright even though
coercion was requested. -/
def to_datetime (s : Series) : Except String Series :=
  match s.dtype with
  | .dt64 => Except.ok s
  | .pbool => Except.error "dtype bool cannot be converted to datetime64"
  | .i64 => Except.ok ⟨.dt64, s.cells.map toDatetimeCell⟩
  | .f64 => Except.ok ⟨.dt64, s.cells.map toDatetimeCell⟩
  | .i64n => Except.ok ⟨.dt64, s.cells.map toDatetimeCell⟩
  | .obj =>
    if s.cells.any isBoolCell then
      Except.error "bool is not convertible to datetime"
    else Except.ok ⟨.dt64, s.cells.map toDatetimeCell⟩

/-- Python rendering of one cell under astype(str); the column dtype
matters only for missing values, whose text differs per dtype: NaN
renders as nan, the Int64 missing value as the NA marker and NaT as
NaT. -/
def renderCell (t : PdType) (v : Value) : String :=
  match v with
  | .vNull =>
    match t with
    | .i64n => "<NA>"
    | .dt64 => "NaT"
    | _ => "nan"
  | v => pyStr v

/-- Model of astype(str): renders every cell to its text and always
succeeds, on every dtype — no cell becomes null and nothing raises. -/
def castStr (s : Series) : Series :=
  ⟨.obj, s.cells.map (fun v => Value.vStr (renderCell s.dtype v))⟩

/-- Model of astype(bool): elementwise Python truthiness on object
columns and on plain numeric columns (where NaN is truthy, so no cell
ever becomes null); identity on boolean columns; raises on a
nullable-integer column containing a missing value; always raises on
datetime columns. -/
def castBool (s : Series) : Except String Series :=
  match s.dtype with
  | .pbool => Except.ok s
  | .obj => Except.ok ⟨.pbool, s.cells.map (fun v => Value.vBool (truthy v))⟩
  | .i64 => Except.ok ⟨.pbool, s.cells.map (fun v => Value.vBool (truthy v))⟩
  | .f64 => Except.ok ⟨.pbool, s.cells.map (fun v => Value.vBool (truthy v))⟩
  | .i64n =>
    if s.cells.any (fun v => v == Value.vNull) then
      Except.error "cannot convert to bool-dtype array with missing values"
    else Except.ok ⟨.pbool, s.cells.map (fun v => Value.vBool (truthy v))⟩
  | .dt64 => Except.error "DatetimeArray cannot be cast to dtype bool"

/-- A raw dtype string that the array library recognizes but that is
not one of the five names the transformer dispatches on; float64 is
the representative the model carries (others such as float32 exist and
behave analogously, up to float precision the model does not track). -/
inductive RawDType where
  | rFloat64
deriving DecidableEq, Repr

/-- The target dtype string of a convert_types entry: one of the five
names the code dispatches on, a recognized raw dtype string (reaching
the else branch, where astype succeeds on compatible columns), or a
string the array library does not understand, on which the raw astype
raises. -/
inductive DType where
  | dInt
  | dFloat
  | dStr
  | dBool
  | dDatetime
  | dRaw (r : RawDType)
  | dUnknown (s : String)
deriving DecidableEq, Repr

/-- Conversion of one column, mirroring the dispatch in
Transformer._convert_types (transform.py lines 173-185): the datetime
and float targets go through the coercing readers (float additionally
casts the numeric result), the integer target coerces and then casts
to the nullable integer dtype, the text and boolean targets cast
directly, a recognized raw dtype is cast directly by the else branch,
and an unrecognized dtype string raises there. -/
def convertCol (dt : DType) (s : Series) : Except String Series :=
  match dt with
  | .dDatetime => to_datetime s
  | .dFloat => castFloat (to_numeric s)
  | .dInt => castInt64 (to_numeric s)
  | .dStr => Except.ok (castStr s)
  | .dBool => castBool s
  | .dRaw .rFloat64 => castFloat s
  | .dUnknown u => Except.error ("data type " ++ u ++ " not understood")

/-- A DataFrame for the typed transform section: ordered named
Series. -/
structure DFrame where
  cols : List (String × Series)
deriving DecidableEq, Repr

namespace DFrame

/-- Column lookup on the typed frame. -/
def col? (c : DFrame) (name : String) : Option Series :=
  (c.cols.find? (fun p => p.1 == name)).map (fun p => p.2)

/-- Replace an existing column of the typed frame. -/
def setCol (c : DFrame) (name : String) (s : Series) : DFrame :=
  ⟨c.cols.map (fun p => if p.1 == name then (p.1, s) else p)⟩

end DFrame

/-- Model of Transformer._convert_types (transform.py lines 164-190):
walk the type mapping in order; a column absent from the chunk is
logged and skipped; a failing column conversion is wrapped and raised
as a TransformationError for the whole chunk, aborting the remaining
entries; otherwise the converted column replaces the old one. -/
def convert_types (c : DFrame) (mapping : List (String × DType)) :
    Except String DFrame :=
  match mapping with
  | [] => Except.ok c
  | (col, dt) :: rest =>
    match c.col? col with
    | none => convert_types c rest
    | some s =>
      match convertCol dt s with
      | Except.error m =>
        Except.error ("Error converting column " ++ col ++ ": " ++ m)
      | Except.ok s2 => convert_types (c.setCol col s2) rest

/-! ## Transformer: validation (src/etl/transform.py lines 86-146) -/

/-- A declarative validation rule (the tagged dictionaries consumed by
`Transformer.validate_data`).  A regex pattern is modelled as its
matching predicate on rendered text; a custom rule is the caller-supplied
predicate over the whole chunk together with its message.  `unknownKind`
stands for a dictionary whose type tag matches no branch (the loop body
silently skips it). -/
inductive VRule where
  | notNull (cols : List String)
  | unique (cols : List String)
  | range (col : String) (lo hi : Option Rat)
  | regex (col : String) (pat : String → Bool)
  | custom (f : Chunk → Bool) (msg : String)
  | unknownKind

/-- What evaluating the body of the validation loop for one rule does:
pass, raise a ValidationError with a message, or raise some other
exception (KeyError from a column lookup) with a message. -/
inductive RuleOutcome where
  | pass
  | vErr (msg : String)
  | exc (msg : String)
deriving DecidableEq, Repr

/-- The KeyError message for a missing column. -/
def keyErrMsg (col : String) : String := "KeyError: " ++ col

/-- The not_null branch: for each named column in order, look it up
(KeyError if absent) and raise a ValidationError if it contains a null. -/
def checkNotNull (c : Chunk) : List String → RuleOutcome
  | [] => RuleOutcome.pass
  | col :: rest =>
    match c.col? col with
    | none => RuleOutcome.exc (keyErrMsg col)
    | some vs =>
      if vs.any (fun v => v == Value.vNull) then
        RuleOutcome.vErr ("Column " ++ col ++ " contains NULL values")
      else checkNotNull c rest

/-- The unique branch: for each named column in order, look it up
(KeyError if absent) and raise a ValidationError if any value occurs
twice (pandas `duplicated` treats equal nulls as duplicates). -/
def checkUnique (c : Chunk) : List String → RuleOutcome
  | [] => RuleOutcome.pass
  | col :: rest =>
    match c.col? col with
    | none => RuleOutcome.exc (keyErrMsg col)
    | some vs =>
      if vs.Nodup then checkUnique c rest
      else RuleOutcome.vErr ("Column " ++ col ++ " contains duplicate values")

/-- The minimum `series.min()` over the numeric cells of a column, skipping nulls and
non-numeric cells (pandas skipna); `none` when there is nothing to
compare, in which case both bound comparisons are vacuously false. -/
def colMin (vs : List Value) : Option Rat :=
  (vs.filterMap (fun v => match v with
    | Value.vInt n => some (n : Rat)
    | Value.vNum q => some q
    | _ => none)).min?

/-- The maximum `series.max()` over the numeric cells of a column, dual of `colMin`. -/
def colMax (vs : List Value) : Option Rat :=
  (vs.filterMap (fun v => match v with
    | Value.vInt n => some (n : Rat)
    | Value.vNum q => some q
    | _ => none)).max?

/-- The second half of the range branch: when a maximum bound is given,
look the column up (KeyError if absent) and fail if its maximum exceeds
the bound. -/
def checkRangeMax (c : Chunk) (col : String) (hi : Option Rat) : RuleOutcome :=
  match hi with
  | none => RuleOutcome.pass
  | some b =>
    match c.col? col with
    | none => RuleOutcome.exc (keyErrMsg col)
    | some vs =>
      match colMax vs with
      | some mx =>
        if b < mx then
          RuleOutcome.vErr ("Column " ++ col ++ " contains values above maximum")
        else RuleOutcome.pass
      | none => RuleOutcome.pass

/-- The range branch (transform.py lines 116-125): the minimum bound is
checked first, then the maximum; each bound that is present performs its
own column lookup, and a rule with neither bound present touches nothing. -/
def checkRange (c : Chunk) (col : String) (lo hi : Option Rat) : RuleOutcome :=
  match lo with
  | none => checkRangeMax c col hi
  | some b =>
    match c.col? col with
    | none => RuleOutcome.exc (keyErrMsg col)
    | some vs =>
      match colMin vs with
      | some mn =>
        if mn < b then
          RuleOutcome.vErr ("Column " ++ col ++ " contains values below minimum")
        else checkRangeMax c col hi
      | none => checkRangeMax c col hi

/-- The body of the validation loop for one rule (transform.py lines
101-136). -/
def checkRule (c : Chunk) (r : VRule) : RuleOutcome :=
  match r with
  | .notNull cols => checkNotNull c cols
  | .unique cols => checkUnique c cols
  | .range col lo hi => checkRange c col lo hi
  | .regex col pat =>
    match c.col? col with
    | none => RuleOutcome.exc (keyErrMsg col)
    | some vs =>
      if !vs.all (fun v => pat (pyStr v)) then
        RuleOutcome.vErr ("Column " ++ col ++ " contains values not matching pattern")
      else RuleOutcome.pass
  | .custom f msg =>
    if !f c then RuleOutcome.vErr ("Custom validation failed: " ++ msg)
    else RuleOutcome.pass
  | .unknownKind => RuleOutcome.pass

/-- Model of `Transformer.validate_data` (transform.py lines 86-146): evaluate the
rules in order inside one try block; the first rule that raises stops the
loop; a raised ValidationError propagates as is, while any other
exception is caught and wrapped into a ValidationError; if every rule
passes the function returns True.  The error branch of the result is
always a ValidationError message. -/
def validate_data (c : Chunk) : List VRule → Except String Bool
  | [] => Except.ok true
  | r :: rs =>
    match checkRule c r with
    | RuleOutcome.pass => validate_data c rs
    | RuleOutcome.vErr m => Except.error m
    | RuleOutcome.exc m => Except.error ("Error during validation: " ++ m)

/-! ## Orchestrator per-file run (src/main.py lines 18-103) -/

/-- A file relocation event performed during one per-file run:
`errorRelocation` records an invocation of the error-directory move used
by the Extractor (`_move_file_to_error`), `archiveRelocation` an
invocation of `archive_file`. -/
inductive Ev where
  | errorRelocation (f : String)
  | archiveRelocation (f : String)
deriving DecidableEq, Repr

/-- The externally observable behaviour of one file during a run: the
chunks its extraction generator yields, whether the generator raises an
ExtractionError after those yields (having quarantined the file first,
extract.py lines 132-139), and whether `archive_file` succeeds
(extract.py lines 141-165). -/
structure FileSpec where
  path : String
  chunks : List Chunk
  extractErr : Option String
  archiveOk : Bool

/-- The per-file result dictionary built by `process_file`
(main.py lines 45-51). -/
structure FileResult where
  file : String
  success : Bool
  rows_processed : Nat
  rows_loaded : Nat
  error : Option String
deriving DecidableEq, Repr

/-- The message recorded when an ETLError escapes the try block of
`process_file` (main.py lines 92-95). -/
def wrapEtl (path msg : String) : String :=
  "ETL error processing " ++ path ++ ": " ++ msg

/-- The chunk loop of `process_file` (main.py lines 60-81), abstracted
over the injected components: `tf` is `transformer.transform` applied to
the configured transformation list, `vd` is `transformer.validate_data`
applied to the configured validation list (skipped when `useVd` is
false, i.e. the list is empty), and `ld` is `loader.load_dataframe`
applied to the file path, batch index and transformed chunk.  The first
raised error aborts the loop; on success the accumulated totals of rows
read and rows loaded are returned. -/
def chunkLoop (tf : Chunk → Except String Chunk) (useVd : Bool)
    (vd : Chunk → Except String Bool)
    (ld : String → Nat → Chunk → Except String Nat) (path : String) :
    Nat → List Chunk → Except String (Nat × Nat)
  | _, [] => Except.ok (0, 0)
  | batchIdx, df :: rest =>
    match tf df with
    | Except.error m => Except.error m
    | Except.ok tdf =>
      match (if useVd then vd tdf else Except.ok true) with
      | Except.error m => Except.error m
      | Except.ok _ =>
        match ld path batchIdx tdf with
        | Except.error m => Except.error m
        | Except.ok n =>
          match chunkLoop tf useVd vd ld path (batchIdx + 1) rest with
          | Except.error m => Except.error m
          | Except.ok (r, l) => Except.ok (df.nrows + r, n + l)

/-- Model of `process_file` (main.py lines 18-103): run the chunk loop over the
chunks the generator yields; if the generator then raises, the extractor
has already relocated the file to the error directory and the error is
caught at the file boundary; otherwise archive the file (which may itself
raise an ExtractionError) and commit the totals to the result.  Every
exception is caught and recorded in the result; the except branches
perform no relocation of their own.  Returns the result together with
the relocation events that occurred. -/
def process_file (tf : Chunk → Except String Chunk) (useVd : Bool)
    (vd : Chunk → Except String Bool)
    (ld : String → Nat → Chunk → Except String Nat)
    (fs : FileSpec) : FileResult × List Ev :=
  let base : FileResult :=
    { file := fs.path, success := false, rows_processed := 0,
      rows_loaded := 0, error := none }
  match chunkLoop tf useVd vd ld fs.path 0 fs.chunks with
  | Except.error m =>
    ({ base with error := some (wrapEtl fs.path m) }, [])
  | Except.ok (rows, loaded) =>
    match fs.extractErr with
    | some m =>
      ({ base with error := some (wrapEtl fs.path m) },
       [Ev.errorRelocation fs.path])
    | none =>
      if fs.archiveOk then
        ({ base with
            success := true,
            rows_processed := rows,
            rows_loaded := loaded },
         [Ev.archiveRelocation fs.path])
      else
        let m := wrapEtl fs.path ("Failed to archive " ++ fs.path)
        ({ base with error := some m }, [])

/-- Whether one file's run succeeds end to end: every chunk transforms,
validates and loads, the generator finishes without raising, and the
archive move succeeds. -/
def runOk (tf : Chunk → Except String Chunk) (useVd : Bool)
    (vd : Chunk → Except String Bool)
    (ld : String → Nat → Chunk → Except String Nat)
    (fs : FileSpec) : Bool :=
  (match chunkLoop tf useVd vd ld fs.path 0 fs.chunks with
   | Except.ok _ => true
   | Except.error _ => false)
  && fs.extractErr.isNone && fs.archiveOk

/-- The sequential dispatch loop of `main` (main.py lines 213-227): each
file is processed by `process_file` and its result collected; a file
never aborts the loop because `process_file` catches every exception. -/
def runAll (tf : Chunk → Except String Chunk) (useVd : Bool)
    (vd : Chunk → Except String Bool)
    (ld : String → Nat → Chunk → Except String Nat)
    (files : List FileSpec) : List FileResult :=
  files.map (fun fs => (process_file tf useVd vd ld fs).1)

/-! ## Loader connection (src/etl/load.py lines 33-86) -/

/-- The lower-casing `db_type.lower()`: ASCII lower-casing, character by character. -/
def toLowerChars (s : String) : List Char := s.toList.map Char.toLower

/-- The sqlalchemy scheme prefix chosen for a database type, or `none`
when the type is unsupported (load.py lines 48-53: the lowercased type
selects between the postgresql and mysql connection strings, anything
else raises DatabaseError at once). -/
def connScheme (dbType : String) : Option String :=
  if toLowerChars dbType = "postgresql".toList then some "postgresql://"
  else if toLowerChars dbType = "mysql".toList then some "mysql+pymysql://"
  else none

/-- Outcome of `Loader.connect`: either connected after a number of
attempts with a number of sleeps taken between attempts, or a
DatabaseError after a number of attempts and sleeps. -/
inductive ConnOutcome where
  | connected (attempts sleeps : Nat)
  | dbError (msg : String) (attempts sleeps : Nat)
deriving DecidableEq, Repr

/-- The message of the DatabaseError raised when every attempt failed
(load.py line 84), carrying the last underlying cause. -/
def exhaustMsg (maxRetries : Nat) (lastError : Option String) : String :=
  "Failed to connect to database after " ++ toString maxRetries ++
    " attempts: " ++ lastError.getD "None"

/-- The retry loop of `Loader.connect` (load.py lines 56-86).  `att i`
is the outcome of the i-th connection attempt (0-indexed): `none` means
it succeeds, `some e` that it raises with message `e`.  `retries` is the
loop counter, `fuel = maxRetries - retries` the remaining iterations;
after a failed attempt the loop sleeps for the fixed delay only when
further attempts remain. -/
def connectGo (att : Nat → Option String) (maxRetries : Nat) :
    Nat → Nat → Option String → Nat → ConnOutcome
  | _, sleeps, lastError, 0 =>
    ConnOutcome.dbError (exhaustMsg maxRetries lastError) maxRetries sleeps
  | retries, sleeps, _, fuel + 1 =>
    match att retries with
    | none => ConnOutcome.connected (retries + 1) sleeps
    | some e =>
      let retries2 := retries + 1
      let sleeps2 := if retries2 < maxRetries then sleeps + 1 else sleeps
      connectGo att maxRetries retries2 sleeps2 (some e) fuel

/-- Model of `Loader.connect` (load.py lines 33-86): an unsupported database type
raises a DatabaseError at once, with no attempt and no sleep; otherwise
the retry loop runs for at most `maxRetries` attempts. -/
def connect (dbType : String) (maxRetries : Nat)
    (att : Nat → Option String) : ConnOutcome :=
  match connScheme dbType with
  | none => ConnOutcome.dbError ("Unsupported database type: " ++ dbType) 0 0
  | some _ => connectGo att maxRetries 0 0 none maxRetries

/-! ## Theorems settling the claims -/

deriving instance DecidableEq for Except

/-- C4: for every fixed input-directory state, two runs of the
file-discovery operation return the same sequence of file identifiers in
the same order: `list_csv_files` depends only on the directory state
(existence and enumerated entries), so equal states give equal listings. -/
theorem c4_discovery_deterministic (d1 d2 : InputDir)
    (hp : d1.present = d2.present) (he : d1.entries = d2.entries) :
    list_csv_files d1 = list_csv_files d2 := by
  cases d1
  cases d2
  simp only at hp he
  subst hp
  subst he
  rfl

/-- Witness for C4 at a concrete directory state. -/
theorem c4_discovery_deterministic_witness :
    list_csv_files ⟨true, ["a.csv", "b.csv"]⟩ =
      list_csv_files ⟨true, ["a.csv", "b.csv"]⟩ :=
  c4_discovery_deterministic ⟨true, ["a.csv", "b.csv"]⟩
    ⟨true, ["a.csv", "b.csv"]⟩ rfl rfl

/-- C8: if the quarantine relocation itself fails, `_move_file_to_error`
returns the original file identifier instead of raising (its result type
is a total path, so no exception can replace the original processing
error); when the relocation succeeds it returns the error-directory path
carrying the error marker in the name. -/
theorem c8_quarantine_failure_returns_original
    (errorDir f ts : String) :
    move_file_to_error false errorDir f ts = f ∧
    move_file_to_error true errorDir f ts =
      errorDir ++ "/" ++ stemOf f ++ "_error_" ++ ts ++ suffixOf f :=
  ⟨rfl, rfl⟩

/-- C1 fails on the code: the replace-vs-append policy is computed from a
fresh directory listing at each file's first chunk, not from the
discovery order fixed at the start of the run.  Concretely: discovery
found only b.csv (so b.csv is the first discovered file), a file a.csv
appears before b.csv in the directory before b.csv's first chunk is
loaded, and the policy computed for the first chunk of the first
discovered file is append, not replace. -/
theorem c1_counterexample :
    list_csv_files ⟨true, ["b.csv"]⟩ = Except.ok ["b.csv"] ∧
    list_csv_files ⟨true, ["a.csv", "b.csv"]⟩ =
      Except.ok ["a.csv", "b.csv"] ∧
    ifExistsArg 0 ["a.csv", "b.csv"] "b.csv" = "append" := by
  refine ⟨?_, ?_, ?_⟩ <;> decide

/-- C1 amended: the policy for a chunk is computed from the listing
returned by the `list_csv_files()` call made at that moment (the
directory is re-listed at each file's first chunk); it is replace exactly
when the chunk is the file's first chunk and the file is the first entry
of that fresh listing, and append in every other case. -/
theorem c1_first_chunk_policy (d : InputDir) (L : List String)
    (f : String) (b : Nat)
    (_hL : list_csv_files d = Except.ok L) (hf : f ∈ L) :
    (ifExistsArg b L f = "replace" ↔ (b = 0 ∧ L.head? = some f)) ∧
    (ifExistsArg b L f = "append" ↔ ¬(b = 0 ∧ L.head? = some f)) := by
  clear _hL
  match L, hf with
  | x :: xs, hf =>
    by_cases hx : x = f
    · subst hx
      have hidx : (x :: xs).indexOf x = 0 := List.indexOf_cons_self x xs
      rcases Nat.eq_zero_or_pos b with hb | hb
      · subst hb
        simp [ifExistsArg, hidx]
      · have hb' : b ≠ 0 := by omega
        simp [ifExistsArg, hidx, hb, hb']
    · have hne : (x == f) = false := by
        simpa using hx
      have hidx : (x :: xs).indexOf f = xs.indexOf f + 1 := by
        simp [List.indexOf_cons, hne]
      have hhd : ¬ ((x :: xs).head? = some f) := by
        simp [hx]
      simp [ifExistsArg, hidx, hhd]
      exact fun _ => hx

/-- Witness for the amended C1: with an unchanged two-file listing, the
first chunk of the first listed file gets replace and the first chunk of
the second listed file gets append. -/
theorem c1_first_chunk_policy_witness :
    ifExistsArg 0 ["a.csv", "b.csv"] "a.csv" = "replace" :=
  ((c1_first_chunk_policy ⟨true, ["a.csv", "b.csv"]⟩ ["a.csv", "b.csv"]
      "a.csv" 0 (by decide) (by simp)).1).mpr ⟨rfl, rfl⟩

/-- Loop invariant for a successful connection: if every attempt before
attempt `j` fails and attempt `j` succeeds, the loop entered at counter
`retries ≤ j` connects after attempt `j+1` overall, having slept once
after each of the failed attempts. -/
theorem connectGo_success (att : Nat → Option String) (maxR : Nat)
    (j : Nat) (hj : att j = none) (hjm : j < maxR) :
    ∀ (fuel retries sleeps : Nat) (last : Option String),
      retries + fuel = maxR → retries ≤ j →
      (∀ i, retries ≤ i → i < j → (att i).isSome) →
      connectGo att maxR retries sleeps last fuel =
        ConnOutcome.connected (j + 1) (sleeps + (j - retries)) := by
  intro fuel
  induction fuel with
  | zero =>
    intro retries sleeps last hsum hle _
    omega
  | succ k ih =>
    intro retries sleeps last hsum hle hfail
    rcases Nat.lt_or_ge retries j with hlt | hge
    · have hsome : (att retries).isSome := hfail retries (Nat.le_refl _) hlt
      rcases ho : att retries with _ | e
      · rw [ho] at hsome
        simp at hsome
      · have hstep : retries + 1 < maxR := by omega
        simp only [connectGo, ho, hstep, if_pos]
        rw [ih (retries + 1) (sleeps + 1) (some e) (by omega) (by omega)
            (fun i h1 h2 => hfail i (by omega) h2)]
        have harith : sleeps + 1 + (j - (retries + 1)) = sleeps + (j - retries) := by
          omega
        rw [harith]
    · have heq : retries = j := by omega
      subst heq
      simp only [connectGo, hj]
      congr 1
      omega

/-- Loop invariant for an exhausted connection: if every remaining
attempt fails, the loop raises after exactly `maxR` attempts with the
message carrying the last failure, having slept between consecutive
attempts only. -/
theorem connectGo_exhaust (att : Nat → Option String) (maxR : Nat)
    (e : String) (hlast : att (maxR - 1) = some e) :
    ∀ (fuel retries sleeps : Nat) (last : Option String),
      retries + fuel = maxR → 0 < fuel →
      (∀ i, retries ≤ i → i < maxR → (att i).isSome) →
      connectGo att maxR retries sleeps last fuel =
        ConnOutcome.dbError (exhaustMsg maxR (some e)) maxR (sleeps + (fuel - 1)) := by
  intro fuel
  induction fuel with
  | zero =>
    intro _ _ _ _ hpos _
    omega
  | succ k ih =>
    intro retries sleeps last hsum _ hfail
    rcases Nat.eq_zero_or_pos k with hk | hk
    · subst hk
      have hr : retries = maxR - 1 := by omega
      subst hr
      have hnostep : ¬ (maxR - 1 + 1 < maxR) := by omega
      simp only [connectGo, hlast]
      rw [if_neg hnostep]
      congr 1
    · have hr : retries < maxR - 1 := by omega
      have hsome : (att retries).isSome := hfail retries (Nat.le_refl _) (by omega)
      rcases ho : att retries with _ | e2
      · rw [ho] at hsome
        simp at hsome
      · have hstep : retries + 1 < maxR := by omega
        simp only [connectGo, ho, hstep, if_pos]
        rw [ih (retries + 1) (sleeps + 1) (some e2) (by omega) hk
            (fun i h1 h2 => hfail i (by omega) h2)]
        have harith : sleeps + 1 + (k - 1) = sleeps + (k + 1 - 1) := by omega
        rw [harith]

/-- C5: for a supported backend kind, if the store fails the first r-1
connection attempts and succeeds on attempt r with r at most the
configured maximum, connect succeeds (after r attempts, with the fixed
delay slept r-1 times between attempts); if every attempt fails, connect
raises DatabaseError carrying the last underlying cause after exactly
the configured maximum number of attempts (with the delay slept between
consecutive attempts); an unrecognized backend kind raises DatabaseError
immediately with no attempt and no delay. -/
theorem c5_connect_retry (dbType : String) (maxR : Nat)
    (att : Nat → Option String) (r : Nat) (e : String) :
    (connScheme dbType = none →
       connect dbType maxR att =
         ConnOutcome.dbError ("Unsupported database type: " ++ dbType) 0 0) ∧
    (connScheme dbType ≠ none → 1 ≤ r → r ≤ maxR →
       (∀ i, i < r - 1 → (att i).isSome) → att (r - 1) = none →
       connect dbType maxR att = ConnOutcome.connected r (r - 1)) ∧
    (connScheme dbType ≠ none → 0 < maxR →
       (∀ i, i < maxR → (att i).isSome) → att (maxR - 1) = some e →
       connect dbType maxR att =
         ConnOutcome.dbError (exhaustMsg maxR (some e)) maxR (maxR - 1)) := by
  refine ⟨?_, ?_, ?_⟩
  · intro hscheme
    simp only [connect, hscheme]
  · intro hscheme hr1 hrm hfail hsucc
    rcases hs : connScheme dbType with _ | s
    · exact absurd hs hscheme
    · simp only [connect, hs]
      have h := connectGo_success att maxR (r - 1) hsucc (by omega)
        maxR 0 0 none (by omega) (by omega)
        (fun i h1 h2 => hfail i h2)
      rw [h]
      have h1 : r - 1 + 1 = r := by omega
      have h2 : 0 + (r - 1 - 0) = r - 1 := by omega
      rw [h1, h2]
  · intro hscheme hpos hfail hlast
    rcases hs : connScheme dbType with _ | s
    · exact absurd hs hscheme
    · simp only [connect, hs]
      have h := connectGo_exhaust att maxR e hlast
        maxR 0 0 none (by omega) hpos
        (fun i h1 h2 => hfail i h2)
      rw [h]
      have h2 : 0 + (maxR - 1) = maxR - 1 := by omega
      rw [h2]

/-- Witness for C5 at concrete inputs: with a maximum of 3 attempts,
a postgresql store that fails only its first attempt connects on attempt
2 after one sleep; a store that always fails raises after exactly 3
attempts with the last cause; an unsupported kind fails at once. -/
theorem c5_connect_retry_witness :
    connect "postgresql" 3 (fun i => if i = 0 then some "refused" else none) =
      ConnOutcome.connected 2 1 ∧
    connect "mysql" 3 (fun _ => some "refused") =
      ConnOutcome.dbError (exhaustMsg 3 (some "refused")) 3 2 ∧
    connect "sqlite" 3 (fun _ => none) =
      ConnOutcome.dbError ("Unsupported database type: " ++ "sqlite") 0 0 := by
  refine ⟨?_, ?_, ?_⟩
  · exact (c5_connect_retry "postgresql" 3
        (fun i => if i = 0 then some "refused" else none) 2 "x").2.1
      (by decide) (by omega) (by omega)
      (by intro i hi; interval_cases i; decide) (by decide)
  · exact (c5_connect_retry "mysql" 3 (fun _ => some "refused") 1 "refused").2.2
      (by decide) (by omega)
      (by intro i hi; decide) (by decide)
  · exact (c5_connect_retry "sqlite" 3 (fun _ => none) 1 "x").1 (by decide)

/-- If every rule in the list passes, the validation loop returns True. -/
theorem validate_data_all_pass (c : Chunk) :
    ∀ rules : List VRule, (∀ x ∈ rules, checkRule c x = RuleOutcome.pass) →
      validate_data c rules = Except.ok true := by
  intro rules
  induction rules with
  | nil => intro _; rfl
  | cons r rs ih =>
    intro h
    have hr := h r (List.mem_cons_self r rs)
    simp only [validate_data, hr]
    exact ih (fun x hx => h x (List.mem_cons_of_mem r hx))

/-- If every rule before `r` passes and `r` does not, the validation
result is an error that does not depend on the rules after `r`. -/
theorem validate_data_first_fail (c : Chunk) (r : VRule)
    (hr : checkRule c r ≠ RuleOutcome.pass) :
    ∀ (pre post post2 : List VRule),
      (∀ x ∈ pre, checkRule c x = RuleOutcome.pass) →
      (∃ m, validate_data c (pre ++ r :: post) = Except.error m) ∧
      validate_data c (pre ++ r :: post) = validate_data c (pre ++ r :: post2) := by
  intro pre
  induction pre with
  | nil =>
    intro post post2 _
    rcases ho : checkRule c r with _ | m | m
    · exact absurd ho hr
    · exact ⟨⟨m, by simp [validate_data, ho]⟩, by simp [validate_data, ho]⟩
    · refine ⟨⟨"Error during validation: " ++ m, by simp [validate_data, ho]⟩, ?_⟩
      simp [validate_data, ho]
  | cons p ps ih =>
    intro post post2 h
    have hp := h p (List.mem_cons_self p ps)
    have hrest := ih post post2 (fun x hx => h x (List.mem_cons_of_mem p hx))
    simp only [List.cons_append, validate_data, hp]
    exact hrest

/-- C7: validation is fail-fast.  If no rule in the list is violated,
`validate_data` succeeds with True; and if every rule before `r` passes
while `r` is violated, the result is a ValidationError that is the same
whatever rules follow `r` — the rules after the first violated one are
never evaluated. -/
theorem c7_validate_fail_fast (c : Chunk) (rules pre post post2 : List VRule)
    (r : VRule) :
    ((∀ x ∈ rules, checkRule c x = RuleOutcome.pass) →
       validate_data c rules = Except.ok true) ∧
    ((∀ x ∈ pre, checkRule c x = RuleOutcome.pass) →
       checkRule c r ≠ RuleOutcome.pass →
       (∃ m, validate_data c (pre ++ r :: post) = Except.error m) ∧
       validate_data c (pre ++ r :: post) =
         validate_data c (pre ++ r :: post2)) :=
  ⟨validate_data_all_pass c rules,
   fun hpre hr => validate_data_first_fail c r hr pre post post2 hpre⟩

/-- Witness for C7 at a concrete chunk and rule list: the not_null rule
on a column holding a null fails, and the result is unchanged by
appending a further (failing) custom rule after it, showing the later
rule is not evaluated; on a clean list validation returns True. -/
theorem c7_validate_fail_fast_witness :
    validate_data ⟨[("a", [Value.vNull])]⟩ [VRule.notNull ["a"]] =
      validate_data ⟨[("a", [Value.vNull])]⟩
        [VRule.notNull ["a"], VRule.custom (fun _ => false) "later"] := by
  have h := (c7_validate_fail_fast ⟨[("a", [Value.vNull])]⟩ [] []
      [] [VRule.custom (fun _ => false) "later"] (VRule.notNull ["a"])).2
    (by intro x hx; cases hx) (by decide)
  simpa using h.2

/-- C10 fails on the code: a range rule with neither bound present never
looks its column up, so naming an absent column raises nothing and
validation succeeds. -/
theorem c10_counterexample :
    Chunk.col? ⟨[("a", [Value.vInt 1])]⟩ "c" = none ∧
    validate_data ⟨[("a", [Value.vInt 1])]⟩ [VRule.range "c" none none] =
      Except.ok true := by
  exact ⟨rfl, rfl⟩

/-- C10 amended: a not_null, unique or regex rule naming an absent
column, and a range rule with at least one bound naming an absent
column, make `validate_data` raise a ValidationError wrapping the
underlying lookup failure (never an unwrapped exception); a range rule
with no bounds never inspects the column and validation succeeds. -/
theorem c10_absent_column (c : Chunk) (col : String) (q : Rat)
    (pat : String → Bool) (h : c.col? col = none) :
    validate_data c [VRule.notNull [col]] =
      Except.error ("Error during validation: " ++ keyErrMsg col) ∧
    validate_data c [VRule.unique [col]] =
      Except.error ("Error during validation: " ++ keyErrMsg col) ∧
    validate_data c [VRule.regex col pat] =
      Except.error ("Error during validation: " ++ keyErrMsg col) ∧
    validate_data c [VRule.range col (some q) none] =
      Except.error ("Error during validation: " ++ keyErrMsg col) ∧
    validate_data c [VRule.range col none (some q)] =
      Except.error ("Error during validation: " ++ keyErrMsg col) ∧
    validate_data c [VRule.range col none none] = Except.ok true := by
  refine ⟨?_, ?_, ?_, ?_, ?_, ?_⟩ <;>
    simp [validate_data, checkRule, checkNotNull, checkUnique, checkRange,
      checkRangeMax, h]

/-- Witness for the amended C10 at a concrete chunk missing column c. -/
theorem c10_absent_column_witness :
    validate_data ⟨[("a", [Value.vInt 1])]⟩ [VRule.notNull ["c"]] =
      Except.error ("Error during validation: " ++ keyErrMsg "c") :=
  (c10_absent_column ⟨[("a", [Value.vInt 1])]⟩ "c" 0 (fun _ => true) rfl).1

/-- Whether an `Except` result is an error (a raised exception). -/
def isError {ε α : Type} (e : Except ε α) : Bool :=
  match e with
  | Except.error _ => true
  | Except.ok _ => false

/-- C6 fails on the code in several independent ways, one per conjunct:
(1) converting the text 3.5 to the integer target raises a
TransformationError for the whole chunk instead of turning the cell
null; (2) the target float64 lies outside the five recognized names,
yet its raw cast on an integer column succeeds with no
TransformationError; (3) the boolean target on a nullable-integer
column holding a missing value raises instead of converting cellwise;
(4) the timestamp target on a boolean column raises even though
coercion was requested. -/
theorem c6_counterexample :
    convert_types ⟨[("q", ⟨PdType.obj, [Value.vStr "3.5"]⟩)]⟩
        [("q", DType.dInt)] =
      Except.error ("Error converting column q: " ++
        "cannot safely cast non-equivalent float64 to int64") ∧
    convert_types ⟨[("n", ⟨PdType.i64, [Value.vInt 1]⟩)]⟩
        [("n", DType.dRaw RawDType.rFloat64)] =
      Except.ok ⟨[("n", ⟨PdType.f64, [Value.vNum (mkRat 1 1)]⟩)]⟩ ∧
    convert_types ⟨[("m", ⟨PdType.i64n, [Value.vInt 1, Value.vNull]⟩)]⟩
        [("m", DType.dBool)] =
      Except.error ("Error converting column m: " ++
        "cannot convert to bool-dtype array with missing values") ∧
    convert_types ⟨[("b", ⟨PdType.pbool, [Value.vBool true]⟩)]⟩
        [("b", DType.dDatetime)] =
      Except.error ("Error converting column b: " ++
        "dtype bool cannot be converted to datetime64") :=
  ⟨by decide, by decide, by decide, by decide⟩

/-- C6 amended: for the float target, unparsable cells of an object
column become null and the conversion never raises (for any column
dtype short of datetime); for the timestamp target, cells of a
string-and-null object column coerce cellwise with unparsable cells
becoming null, but a boolean column raises; the text target renders
every cell and never raises on any dtype; the boolean target converts
object and plain numeric columns by Python truthiness (never null,
never raising) but raises on a nullable-integer column containing a
missing value and on a datetime column; the integer target coerces
unparsable cells of an object column to null unless some cell parses
as a number with a nonzero fractional part, in which case the whole
chunk conversion raises; a target outside the five names that the
array library recognizes (such as float64) succeeds on numeric and
boolean columns with no error, while an unrecognized dtype string
always raises. -/
theorem c6_convert_semantics (s : Series) :
    (s.dtype = PdType.obj →
       convertCol DType.dFloat s =
         Except.ok ⟨PdType.f64,
           s.cells.map (fun v => (toNumericCell v).elim Value.vNull Value.vNum)⟩) ∧
    (s.dtype ≠ PdType.dt64 → isError (convertCol DType.dFloat s) = false) ∧
    (s.dtype = PdType.obj → s.cells.all isStrOrNullCell = true →
       convertCol DType.dDatetime s =
         Except.ok ⟨PdType.dt64, s.cells.map toDatetimeCell⟩) ∧
    (s.dtype = PdType.pbool → isError (convertCol DType.dDatetime s) = true) ∧
    (convertCol DType.dStr s =
       Except.ok ⟨PdType.obj,
         s.cells.map (fun v => Value.vStr (renderCell s.dtype v))⟩) ∧
    ((s.dtype = PdType.obj ∨ s.dtype = PdType.i64 ∨ s.dtype = PdType.f64) →
       convertCol DType.dBool s =
         Except.ok ⟨PdType.pbool,
           s.cells.map (fun v => Value.vBool (truthy v))⟩) ∧
    (s.dtype = PdType.i64n → Value.vNull ∈ s.cells →
       isError (convertCol DType.dBool s) = true) ∧
    (s.dtype = PdType.dt64 → isError (convertCol DType.dBool s) = true) ∧
    (s.dtype = PdType.obj →
       (∀ v ∈ s.cells, ((toNumericCell v).map Rat.den).getD 1 = 1) →
       convertCol DType.dInt s =
         Except.ok ⟨PdType.i64n,
           s.cells.map (fun v =>
             (toNumericCell v).elim Value.vNull (fun q => Value.vInt q.num))⟩) ∧
    (s.dtype = PdType.obj →
       (∃ v ∈ s.cells, ((toNumericCell v).map Rat.den).getD 1 ≠ 1) →
       isError (convertCol DType.dInt s) = true) ∧
    ((s.dtype = PdType.i64 ∨ s.dtype = PdType.f64 ∨
        s.dtype = PdType.i64n ∨ s.dtype = PdType.pbool) →
       isError (convertCol (DType.dRaw RawDType.rFloat64) s) = false) ∧
    (∀ u, isError (convertCol (DType.dUnknown u) s) = true) := by
  obtain ⟨t, cells⟩ := s
  refine ⟨?_, ?_, ?_, ?_, ?_, ?_, ?_, ?_, ?_, ?_, ?_, ?_⟩
  · intro ht
    cases t <;> first | rfl | simp at ht
  · intro _
    cases t <;> rfl
  · intro ht hsn
    cases t <;> try simp at ht
    have hnb : cells.any isBoolCell = false := by
      rw [List.any_eq_false]
      intro v hv
      have h2 := List.all_eq_true.mp hsn v hv
      cases v <;> simp_all [isBoolCell, isStrOrNullCell]
    have hne : ¬ (cells.any isBoolCell = true) := by
      rw [hnb]
      exact Bool.false_ne_true
    simp only [convertCol, to_datetime]
    rw [if_neg hne]
  · intro ht
    cases t <;> first | rfl | simp at ht
  · rfl
  · intro h
    rcases h with ht | ht | ht <;>
      cases t <;> first | rfl | simp at ht
  · intro ht hmem
    cases t <;> try simp at ht
    have hcond : cells.any (fun v => v == Value.vNull) = true := by
      rw [List.any_eq_true]
      exact ⟨Value.vNull, hmem, by decide⟩
    simp only [convertCol, castBool]
    rw [if_pos hcond]
    rfl
  · intro ht
    cases t <;> first | rfl | simp at ht
  · intro ht h
    cases t <;> try simp at ht
    have hcond : (cells.map
        (fun v => (toNumericCell v).elim Value.vNull Value.vNum)).any
        (fun v => match v with
          | Value.vNum q => q.den ≠ 1
          | _ => false) = false := by
      rw [List.any_eq_false]
      intro v hv
      rw [List.mem_map] at hv
      obtain ⟨w, hw, rfl⟩ := hv
      have hd := h w hw
      cases hq : toNumericCell w with
      | none => simp [hq]
      | some q =>
        rw [hq] at hd
        simp at hd
        simp [hq, hd]
    have hne : ¬ ((cells.map
        (fun v => (toNumericCell v).elim Value.vNull Value.vNum)).any
        (fun v => match v with
          | Value.vNum q => q.den ≠ 1
          | _ => false) = true) := by
      rw [hcond]
      exact Bool.false_ne_true
    simp only [convertCol, to_numeric, castInt64]
    rw [if_neg hne]
    rw [List.map_map]
    refine congrArg Except.ok (congrArg (Series.mk PdType.i64n) (List.map_congr_left ?_))
    intro v _
    simp only [Function.comp_apply]
    cases toNumericCell v <;> rfl
  · intro ht hex
    cases t <;> try simp at ht
    obtain ⟨v, hv, hden⟩ := hex
    have hcond : (cells.map
        (fun v => (toNumericCell v).elim Value.vNull Value.vNum)).any
        (fun v => match v with
          | Value.vNum q => q.den ≠ 1
          | _ => false) = true := by
      rw [List.any_eq_true]
      refine ⟨(toNumericCell v).elim Value.vNull Value.vNum,
        List.mem_map_of_mem _ hv, ?_⟩
      cases hq : toNumericCell v with
      | none =>
        rw [hq] at hden
        simp at hden
      | some q =>
        rw [hq] at hden
        simp at hden
        simp [hq, hden]
    simp only [convertCol, to_numeric, castInt64]
    rw [if_pos hcond]
    rfl
  · intro h
    rcases h with ht | ht | ht | ht <;>
      cases t <;> first | rfl | simp at ht
  · intro u
    rfl

/-- Witness for the amended C6 at concrete columns: the float target
parses signed and exponent numerals and nulls the unparsable cell, and
the integer target nulls the unparsable cell while keeping the
integer. -/
theorem c6_convert_semantics_witness :
    convertCol DType.dFloat
        ⟨PdType.obj, [Value.vStr "+7", Value.vStr "1e3", Value.vStr "x"]⟩ =
      Except.ok ⟨PdType.f64,
        [Value.vNum (mkRat 7 1), Value.vNum (mkRat 1000 1), Value.vNull]⟩ ∧
    convertCol DType.dInt ⟨PdType.obj, [Value.vStr "7", Value.vStr "x"]⟩ =
      Except.ok ⟨PdType.i64n, [Value.vInt 7, Value.vNull]⟩ := by
  constructor
  · have h := (c6_convert_semantics
        ⟨PdType.obj, [Value.vStr "+7", Value.vStr "1e3", Value.vStr "x"]⟩).1 rfl
    rw [h]
    decide
  · have h := (c6_convert_semantics
        ⟨PdType.obj, [Value.vStr "7", Value.vStr "x"]⟩).2.2.2.2.2.2.2.2.1
      rfl (by decide)
    rw [h]
    decide

/-- The success flag of a per-file result equals the end-to-end success
of the run. -/
theorem process_file_success_eq (tf : Chunk → Except String Chunk)
    (uv : Bool) (vd : Chunk → Except String Bool)
    (ld : String → Nat → Chunk → Except String Nat) (fs : FileSpec) :
    (process_file tf uv vd ld fs).1.success = runOk tf uv vd ld fs := by
  unfold process_file runOk
  rcases chunkLoop tf uv vd ld fs.path 0 fs.chunks with m | ⟨rows, loaded⟩
  · simp
  · rcases he : fs.extractErr with _ | m
    · rcases ha : fs.archiveOk
      · simp [ha]
      · simp [ha]
    · simp

/-- A failed per-file result always carries an error description, and
its row counters are the untouched zeros of the initial result
dictionary. -/
theorem process_file_fail_shape (tf : Chunk → Except String Chunk)
    (uv : Bool) (vd : Chunk → Except String Bool)
    (ld : String → Nat → Chunk → Except String Nat) (fs : FileSpec)
    (h : (process_file tf uv vd ld fs).1.success = false) :
    (process_file tf uv vd ld fs).1.rows_processed = 0 ∧
    (process_file tf uv vd ld fs).1.rows_loaded = 0 ∧
    ((process_file tf uv vd ld fs).1.error).isSome = true := by
  unfold process_file at h ⊢
  rcases hc : chunkLoop tf uv vd ld fs.path 0 fs.chunks with m | ⟨rows, loaded⟩
  · simp
  · rcases he : fs.extractErr with _ | m
    · rcases ha : fs.archiveOk
      · simp [ha]
      · rw [hc, he, ha] at h
        simp at h
    · simp

/-- An identity transform step (a transformation list that changes
nothing and never fails). -/
def tfId : Chunk → Except String Chunk := fun c => Except.ok c

/-- A validation that always passes. -/
def vdOk : Chunk → Except String Bool := fun _ => Except.ok true

/-- A loader that accepts every chunk and reports its row count. -/
def ldOk : String → Nat → Chunk → Except String Nat :=
  fun _ _ c => Except.ok c.nrows

/-- A file whose extraction yields one chunk and then finishes cleanly. -/
def goodSpec : FileSpec :=
  ⟨"good.csv", [⟨[("a", [Value.vInt 1])]⟩], none, true⟩

/-- A malformed file: its extraction generator quarantines the file and
raises before yielding any chunk. -/
def badSpec : FileSpec :=
  ⟨"bad.csv", [], some "No columns to parse from file", true⟩

/-- C2 fails on the code: here extraction succeeds (the generator yields
its chunk and does not raise) and the failure originates in transform,
yet the orchestrator performs no relocation at all — the event list of
the run is empty, even though the failed result is recorded.  The
except branches of `process_file` never invoke the error-directory
relocation. -/
theorem c2_counterexample :
    goodSpec.extractErr = none ∧
    (process_file (fun _ => Except.error "transformation failed") false
        vdOk ldOk goodSpec).1.success = false ∧
    ((process_file (fun _ => Except.error "transformation failed") false
        vdOk ldOk goodSpec).1.error).isSome = true ∧
    (process_file (fun _ => Except.error "transformation failed") false
        vdOk ldOk goodSpec).2 = [] :=
  ⟨rfl, rfl, rfl, rfl⟩

/-- C2 amended: when a file's failure originates in transform, validate,
load or archiving (extraction finished without raising), the
orchestrator performs no relocation whatsoever — it only records the
failed result with its error description; the error-directory relocation
occurs exactly when the extraction generator itself raises, because the
Extractor quarantines before propagating. -/
theorem c2_no_orchestrator_quarantine (tf : Chunk → Except String Chunk)
    (uv : Bool) (vd : Chunk → Except String Bool)
    (ld : String → Nat → Chunk → Except String Nat) (fs : FileSpec) :
    (fs.extractErr = none →
       (process_file tf uv vd ld fs).1.success = false →
       (process_file tf uv vd ld fs).2 = [] ∧
       ((process_file tf uv vd ld fs).1.error).isSome = true) ∧
    (∀ m, fs.extractErr = some m →
       isError (chunkLoop tf uv vd ld fs.path 0 fs.chunks) = false →
       (process_file tf uv vd ld fs).2 = [Ev.errorRelocation fs.path]) := by
  constructor
  · intro he h
    unfold process_file at h ⊢
    rcases hc : chunkLoop tf uv vd ld fs.path 0 fs.chunks with m | ⟨rows, loaded⟩
    · simp
    · rw [he]
      rcases ha : fs.archiveOk
      · simp [ha]
      · rw [hc, he, ha] at h
        simp at h
  · intro m he hloop
    unfold process_file
    rcases hc : chunkLoop tf uv vd ld fs.path 0 fs.chunks with m2 | ⟨rows, loaded⟩
    · rw [hc] at hloop
      simp [isError] at hloop
    · rw [he]

/-- Witness for the amended C2: a run failing in transform records the
failure and moves nothing, while an extraction failure comes with the
relocation performed inside the Extractor. -/
theorem c2_no_orchestrator_quarantine_witness :
    (process_file (fun _ => Except.error "transformation failed") false
        vdOk ldOk goodSpec).2 = [] ∧
    (process_file tfId false vdOk ldOk badSpec).2 =
      [Ev.errorRelocation "bad.csv"] := by
  constructor
  · exact ((c2_no_orchestrator_quarantine
        (fun _ => Except.error "transformation failed") false vdOk ldOk
        goodSpec).1 rfl rfl).1
  · exact (c2_no_orchestrator_quarantine tfId false vdOk ldOk badSpec).2
      "No columns to parse from file" rfl rfl

/-- C3: for a list of files in which exactly one (the middle one below)
fails while all others succeed, the run produces one result per file,
with all but that one successful; the failed file's result sits at its
position, is marked unsuccessful and records an error description — its
failure never aborts the processing of the remaining files. -/
theorem c3_partial_failure_isolation (tf : Chunk → Except String Chunk)
    (uv : Bool) (vd : Chunk → Except String Bool)
    (ld : String → Nat → Chunk → Except String Nat)
    (A B : List FileSpec) (bad : FileSpec)
    (hA : ∀ fs ∈ A, runOk tf uv vd ld fs = true)
    (hB : ∀ fs ∈ B, runOk tf uv vd ld fs = true)
    (hbad : runOk tf uv vd ld bad = false) :
    (runAll tf uv vd ld (A ++ bad :: B)).length = A.length + B.length + 1 ∧
    (runAll tf uv vd ld (A ++ bad :: B)).countP (fun r => r.success) =
      A.length + B.length ∧
    (runAll tf uv vd ld (A ++ bad :: B))[A.length]? =
      some (process_file tf uv vd ld bad).1 ∧
    (process_file tf uv vd ld bad).1.success = false ∧
    ((process_file tf uv vd ld bad).1.error).isSome = true := by
  have hbadsucc : (process_file tf uv vd ld bad).1.success = false := by
    rw [process_file_success_eq]
    exact hbad
  have hmap : runAll tf uv vd ld (A ++ bad :: B) =
      (A.map fun fs => (process_file tf uv vd ld fs).1) ++
        ((process_file tf uv vd ld bad).1 ::
          (B.map fun fs => (process_file tf uv vd ld fs).1)) := by
    simp [runAll]
  refine ⟨?_, ?_, ?_, hbadsucc, ?_⟩
  · rw [hmap]
    simp
    omega
  · rw [hmap]
    rw [List.countP_append, List.countP_cons]
    have hcA : (A.map fun fs => (process_file tf uv vd ld fs).1).countP
        (fun r => r.success) = A.length := by
      rw [List.countP_map]
      rw [List.countP_eq_length]
      intro fs hfs
      have h1 := hA fs hfs
      simp only [Function.comp_apply]
      rw [process_file_success_eq]
      exact h1
    have hcB : (B.map fun fs => (process_file tf uv vd ld fs).1).countP
        (fun r => r.success) = B.length := by
      rw [List.countP_map]
      rw [List.countP_eq_length]
      intro fs hfs
      have h1 := hB fs hfs
      simp only [Function.comp_apply]
      rw [process_file_success_eq]
      exact h1
    rw [hcA, hcB, hbadsucc]
    simp
  · rw [hmap]
    rw [List.getElem?_append_right (by simp)]
    simp
  · exact (process_file_fail_shape tf uv vd ld bad hbadsucc).2.2

/-- Witness for C3 on a concrete two-file run: one good file and one
malformed file give two results, one successful, with the failed result
in the malformed file's position. -/
theorem c3_partial_failure_isolation_witness :
    (runAll tfId false vdOk ldOk [goodSpec, badSpec]).length = 2 ∧
    (runAll tfId false vdOk ldOk [goodSpec, badSpec]).countP
      (fun r => r.success) = 1 := by
  have h := c3_partial_failure_isolation tfId false vdOk ldOk
    [goodSpec] [] badSpec
    (by intro fs hfs; rw [List.mem_singleton] at hfs; subst hfs; rfl)
    (by intro fs hfs; cases hfs)
    (by rfl)
  exact ⟨h.1, h.2.1⟩

/-- C9: whenever a per-file run fails at any point, the returned result
has success false and reports zero rows processed and zero rows loaded
(the running totals of the chunk loop are only committed to the result
after the whole file, archiving included, succeeds), together with an
error description. -/
theorem c9_failed_run_zero_counts (tf : Chunk → Except String Chunk)
    (uv : Bool) (vd : Chunk → Except String Bool)
    (ld : String → Nat → Chunk → Except String Nat) (fs : FileSpec)
    (h : (process_file tf uv vd ld fs).1.success = false) :
    (process_file tf uv vd ld fs).1.rows_processed = 0 ∧
    (process_file tf uv vd ld fs).1.rows_loaded = 0 ∧
    ((process_file tf uv vd ld fs).1.error).isSome = true :=
  process_file_fail_shape tf uv vd ld fs h

/-- A loader that accepts the first chunk of a file and fails on the
second, to exhibit a run that loads data before failing. -/
def ldFailSecond : String → Nat → Chunk → Except String Nat :=
  fun _ b c => if b = 0 then Except.ok c.nrows
    else Except.error "connection lost"

/-- A file whose extraction yields two chunks and finishes cleanly. -/
def twoChunkSpec : FileSpec :=
  ⟨"two.csv",
   [⟨[("a", [Value.vInt 1, Value.vInt 2])]⟩, ⟨[("a", [Value.vInt 3])]⟩],
   none, true⟩

/-- Witness for C9 on a run whose first chunk was transformed and loaded
(2 rows) before the second chunk's load failed: the recorded result
still reports zero rows processed and zero rows loaded. -/
theorem c9_failed_run_zero_counts_witness :
    ldFailSecond "two.csv" 0 ⟨[("a", [Value.vInt 1, Value.vInt 2])]⟩ =
      Except.ok 2 ∧
    (process_file tfId false vdOk ldFailSecond twoChunkSpec).1.rows_processed = 0 ∧
    (process_file tfId false vdOk ldFailSecond twoChunkSpec).1.rows_loaded = 0 := by
  have h := c9_failed_run_zero_counts tfId false vdOk ldFailSecond
    twoChunkSpec (by rfl)
  exact ⟨rfl, h.1, h.2.1⟩
